import Mathlib

/-!
# Shallow embedding of the `hazexpired` Go package

The package (`hazexpired.go`) fetches the certificate chain a remote TLS
peer presents and reports per-certificate expiration facts.  We model
instants (`time.Time`) as integer nanoseconds since the epoch, durations
(`time.Duration`) as integer nanoseconds, and the network dial as an
explicit outcome parameter (either a connection failure with its cause
string, or the list of peer certificates the handshake produced).  All
functions below are translated directly from `hazexpired.go`.
-/

namespace HazExpired

/-- Nanoseconds in one hour (`time.Hour` as an `int64` duration). -/
def nsPerHour : Int := 3600000000000

/-- Nanoseconds in one day (24 hours). -/
def nsPerDay : Int := 86400000000000

/-- The fields of an `x509.Certificate` that `FetchChain` reads:
`NotAfter` (an instant, in ns since epoch), `Signature` (raw bytes) and
`SerialNumber` (a `*big.Int`). -/
structure PeerCertificate where
  notAfter : Int
  signature : List Nat
  serialNumber : Int
deriving Repr, DecidableEq

/-- Go struct `CertificateStatus` from `hazexpired.go`. -/
structure CertificateStatus where
  ExpiredNow : Bool
  ExpiresInDays : Int
  ExpirationDate : Int
  Signature : List Nat
  SerialNumber : Int
deriving Repr, DecidableEq

/-- Go `time.Time.Before`: `a.Before(b)` is true iff instant `a` is
strictly earlier than instant `b`. -/
def timeBefore (a b : Int) : Bool := a < b

/-- The loop body of `FetchChain`: build one `CertificateStatus` from one
peer certificate and the shared observation instant `now`.

`status.ExpiresInDays = int(cert.NotAfter.Sub(now).Hours() / 24)` divides
the signed duration by 24 hours and converts to `int`; Go's float-to-int
conversion discards the fractional part (truncation toward zero).  The
model idealizes the `float64` pipeline (`Hours()` then `/ 24`) to exact
integer arithmetic, `Int.tdiv` of the nanosecond duration by the
nanoseconds in a day.  This idealization is known to drift from the
program by one day near whole-day boundaries once the magnitude reaches
about 171 days (rounding in `float64` can cross the boundary), and it
ignores `time.Sub` saturation at the `int64` extremes; within a day of
`now` the pipeline is exact, so the sign and the zero-vs-negative
behaviour proved below hold of the program as well. -/
def certificateStatus (now : Int) (cert : PeerCertificate) : CertificateStatus :=
  { ExpiredNow := timeBefore cert.notAfter now
    ExpiresInDays := (cert.notAfter - now).tdiv nsPerDay
    ExpirationDate := cert.notAfter
    Signature := cert.signature
    SerialNumber := cert.serialNumber }

/-- Result of `tls.DialWithDialer`: either an error with its cause, or a
connection whose `ConnectionState().PeerCertificates` is this list, in
the order the peer sent them. -/
inductive DialOutcome where
  | failure (cause : String)
  | success (peerCertificates : List PeerCertificate)
deriving Repr, DecidableEq

/-- The error message `FetchChain` builds on dial failure:
`fmt.Errorf("Could not establish connection to outbound address %s - %s", address, err)`. -/
def connectionErrorMessage (address cause : String) : String :=
  "Could not establish connection to outbound address " ++ address ++ " - " ++ cause

/-- `FetchChain(address)` — on dial failure returns `(nil, err)`; on
success captures `now := time.Now()` once and maps every peer
certificate through the loop body, appending in order. The dial outcome
and the captured instant are explicit parameters of the model. -/
def FetchChain (address : String) (outcome : DialOutcome) (now : Int) :
    Except String (List CertificateStatus) :=
  match outcome with
  | .failure cause => .error (connectionErrorMessage address cause)
  | .success certs => .ok (certs.map (certificateStatus now))

/-- The wrapper message each query puts around a `FetchChain` error:
`fmt.Errorf("Error Fetching Certificate Chain - %s", err)`. -/
def fetchErrorMessage (e : String) : String :=
  "Error Fetching Certificate Chain - " ++ e

/-- `Expired(address)` — `(true, wrapped err)` on fetch failure, else
true iff some certificate in the chain has `ExpiredNow` set. -/
def Expired (address : String) (outcome : DialOutcome) (now : Int) :
    Bool × Option String :=
  match FetchChain address outcome now with
  | .error e => (true, some (fetchErrorMessage e))
  | .ok chain => (chain.any (fun cert => cert.ExpiredNow), none)

/-- `ExpiresWithinDays(address, days)` — `(true, wrapped err)` on fetch
failure, else true iff some certificate has `ExpiresInDays < days`. -/
def ExpiresWithinDays (address : String) (outcome : DialOutcome) (now : Int)
    (days : Int) : Bool × Option String :=
  match FetchChain address outcome now with
  | .error e => (true, some (fetchErrorMessage e))
  | .ok chain => (chain.any (fun cert => cert.ExpiresInDays < days), none)

/-- `ExpiresBeforeDate(address, t)` — `(true, wrapped err)` on fetch
failure, else true iff some certificate has `ExpirationDate.Before(t)`. -/
def ExpiresBeforeDate (address : String) (outcome : DialOutcome) (now : Int)
    (t : Int) : Bool × Option String :=
  match FetchChain address outcome now with
  | .error e => (true, some (fetchErrorMessage e))
  | .ok chain => (chain.any (fun cert => timeBefore cert.ExpirationDate t), none)

/-! ## Helper lemmas about truncating division by `nsPerDay` -/

theorem nsPerDay_eq : nsPerDay = 86400000000000 := rfl

theorem tdiv_day_natAbs (d : Int) :
    (d.tdiv nsPerDay).natAbs = d.natAbs / 86400000000000 :=
  Int.natAbs_tdiv d nsPerDay

theorem tdiv_day_nonneg {d : Int} (h : 0 ≤ d) : 0 ≤ d.tdiv nsPerDay :=
  Int.tdiv_nonneg h (by norm_num [nsPerDay])

theorem tdiv_day_nonpos {d : Int} (h : d ≤ 0) : d.tdiv nsPerDay ≤ 0 := by
  have h1 : d.tdiv nsPerDay = -((-d).tdiv nsPerDay) := by
    rw [← Int.neg_tdiv, Int.neg_neg]
  have h2 : (0 : Int) ≤ (-d).tdiv nsPerDay :=
    Int.tdiv_nonneg (by omega) (by norm_num [nsPerDay])
  omega

theorem tdiv_day_eq_zero_of_small_neg {d : Int} (h1 : -nsPerDay < d) (h2 : d < 0) :
    d.tdiv nsPerDay = 0 := by
  rw [nsPerDay_eq] at h1 ⊢
  have ha : d.tdiv 86400000000000 = -((-d).tdiv 86400000000000) := by
    rw [← Int.neg_tdiv, Int.neg_neg]
  have hb : (-d).tdiv 86400000000000 = 0 :=
    Int.tdiv_eq_zero_of_lt (by omega) (by omega)
  omega

theorem tdiv_day_neg_iff (d : Int) : d.tdiv nsPerDay < 0 ↔ d ≤ -nsPerDay := by
  rw [nsPerDay_eq]
  rcases le_or_lt 0 d with hd | hd
  · have h0 : 0 ≤ d.tdiv 86400000000000 := Int.tdiv_nonneg hd (by norm_num)
    omega
  · have h1 : d.tdiv 86400000000000 = -((-d).tdiv 86400000000000) := by
      rw [← Int.neg_tdiv, Int.neg_neg]
    have h2 : (-d).tdiv 86400000000000 = (-d) / 86400000000000 :=
      Int.tdiv_eq_ediv (by omega) (by omega)
    omega

/-! ## C1 -/

/-- C1 counterexample: observe a certificate whose `NotAfter` is 12 hours
before the observation instant (`now = 43200000000000` ns, `notAfter = 0`).
The claim says `ExpiresInDays` equals the floor of the hour difference
divided by 24 (which is `-1` here) and is negative whenever the certificate
is expired; the code produces `0` (Go truncates toward zero), so both parts
fail at this input. -/
theorem c1_floor_counterexample :
    ¬ (((certificateStatus 43200000000000 ⟨0, [], 0⟩).ExpiresInDays
          = Int.fdiv ((0 : Int) - 43200000000000) nsPerDay)
        ∨ ((certificateStatus 43200000000000 ⟨0, [], 0⟩).ExpiredNow = true →
            (certificateStatus 43200000000000 ⟨0, [], 0⟩).ExpiresInDays < 0)) := by
  decide

/-- C1 (amended): because the conversion truncates toward zero rather
than flooring, `ExpiresInDays` is non-negative when the certificate is
not yet expired and non-positive — but not necessarily negative — when it
is expired: a certificate expired by less than 24 hours gets
`ExpiresInDays = 0`, and one expired by 24 hours or more gets a strictly
negative value. -/
theorem c1_expires_in_days_sign (now : Int) (cert : PeerCertificate) :
    (now ≤ cert.notAfter → 0 ≤ (certificateStatus now cert).ExpiresInDays) ∧
    (cert.notAfter < now → (certificateStatus now cert).ExpiresInDays ≤ 0) ∧
    (now - nsPerDay < cert.notAfter → cert.notAfter < now →
        (certificateStatus now cert).ExpiresInDays = 0) ∧
    (cert.notAfter ≤ now - nsPerDay →
        (certificateStatus now cert).ExpiresInDays < 0) := by
  have hq : (certificateStatus now cert).ExpiresInDays
      = (cert.notAfter - now).tdiv nsPerDay := rfl
  rw [hq]
  refine ⟨?_, ?_, ?_, ?_⟩
  · intro h
    exact tdiv_day_nonneg (by omega)
  · intro h
    exact tdiv_day_nonpos (by omega)
  · intro h1 h2
    exact tdiv_day_eq_zero_of_small_neg (by omega) (by omega)
  · intro h
    exact (tdiv_day_neg_iff _).mpr (by omega)

/-- C1 witness: a certificate expired by 12 hours has `ExpiresInDays`
exactly 0, not a negative value. -/
theorem c1_sign_witness :
    (certificateStatus 43200000000000 ⟨0, [], 0⟩).ExpiresInDays = 0 :=
  (c1_expires_in_days_sign 43200000000000 ⟨0, [], 0⟩).2.2.1 (by decide) (by decide)

/-! ## C2 -/

/-- C2: in every chain produced by a successful fetch, a record's
`ExpiredNow` is true exactly when its `ExpirationDate` is strictly before
the single observation instant `now` that the whole call used; both
fields are computed from that same instant inside `certificateStatus`. -/
theorem c2_expired_now_iff_before (address : String) (certs : List PeerCertificate)
    (now : Int) (chain : List CertificateStatus)
    (hfetch : FetchChain address (.success certs) now = .ok chain)
    (s : CertificateStatus) (hs : s ∈ chain) :
    s.ExpiredNow = true ↔ s.ExpirationDate < now := by
  injection hfetch with h
  subst h
  obtain ⟨c, hc, rfl⟩ := List.mem_map.mp hs
  simp [certificateStatus, timeBefore]

/-- C2 witness: the single record fetched from a peer presenting one
certificate with `notAfter = 0`, observed at instant 1. -/
theorem c2_expired_now_witness :
    ((certificateStatus 1 ⟨0, [], 5⟩).ExpiredNow = true ↔
      (certificateStatus 1 ⟨0, [], 5⟩).ExpirationDate < 1) :=
  c2_expired_now_iff_before "host:443" [⟨0, [], 5⟩] 1
    [certificateStatus 1 ⟨0, [], 5⟩] rfl (certificateStatus 1 ⟨0, [], 5⟩)
    (List.mem_singleton.mpr rfl)

/-! ## C3 -/

/-- C3: on a successful fetch each query returns true iff at least one
certificate of the chain satisfies its predicate (`ExpiredNow`,
`ExpiresInDays < days`, `ExpirationDate` before `t` respectively), and
over the empty chain every query returns false. -/
theorem c3_queries_exists_semantics (address : String) (certs : List PeerCertificate)
    (now days t : Int) :
    ((Expired address (.success certs) now).1 = true ↔
        ∃ c ∈ certs, (certificateStatus now c).ExpiredNow = true) ∧
    ((ExpiresWithinDays address (.success certs) now days).1 = true ↔
        ∃ c ∈ certs, (certificateStatus now c).ExpiresInDays < days) ∧
    ((ExpiresBeforeDate address (.success certs) now t).1 = true ↔
        ∃ c ∈ certs, (certificateStatus now c).ExpirationDate < t) ∧
    (Expired address (.success ([] : List PeerCertificate)) now).1 = false ∧
    (ExpiresWithinDays address (.success ([] : List PeerCertificate)) now days).1
        = false ∧
    (ExpiresBeforeDate address (.success ([] : List PeerCertificate)) now t).1
        = false := by
  refine ⟨?_, ?_, ?_, rfl, rfl, rfl⟩ <;>
    simp [Expired, ExpiresWithinDays, ExpiresBeforeDate, FetchChain,
      List.any_map, List.any_eq_true, timeBefore, Function.comp]

/-! ## C4 -/

/-- C4: when the dial fails, each of the three queries returns the boolean
`true` together with a non-nil error whose message wraps the fetch error
in the query's context string. -/
theorem c4_error_true_and_wrapped (address cause : String) (now days t : Int) :
    ((Expired address (.failure cause) now).1 = true ∧
      (Expired address (.failure cause) now).2
        = some ("Error Fetching Certificate Chain - "
            ++ connectionErrorMessage address cause)) ∧
    ((ExpiresWithinDays address (.failure cause) now days).1 = true ∧
      (ExpiresWithinDays address (.failure cause) now days).2
        = some ("Error Fetching Certificate Chain - "
            ++ connectionErrorMessage address cause)) ∧
    ((ExpiresBeforeDate address (.failure cause) now t).1 = true ∧
      (ExpiresBeforeDate address (.failure cause) now t).2
        = some ("Error Fetching Certificate Chain - "
            ++ connectionErrorMessage address cause)) :=
  ⟨⟨rfl, rfl⟩, ⟨rfl, rfl⟩, ⟨rfl, rfl⟩⟩

/-! ## C5 -/

/-- C5: when the dial fails, `FetchChain` returns an error and never a
chain (not even a partial one), and the error message contains both the
attempted address and the underlying cause. -/
theorem c5_failure_no_chain_message (address cause : String) (now : Int) :
    (∀ chain, FetchChain address (.failure cause) now ≠ .ok chain) ∧
    ∃ msg, FetchChain address (.failure cause) now = .error msg ∧
      (∃ a b, msg = a ++ address ++ b) ∧
      (∃ a b, msg = a ++ cause ++ b) := by
  refine ⟨?_, ?_⟩
  · intro chain h
    cases h
  refine ⟨connectionErrorMessage address cause, rfl,
    ⟨"Could not establish connection to outbound address ", " - " ++ cause, ?_⟩,
    ⟨"Could not establish connection to outbound address " ++ address ++ " - ",
      "", ?_⟩⟩
  · simp [connectionErrorMessage, String.append_assoc]
  · simp [connectionErrorMessage, String.append_assoc]

/-- C5 witness: a concrete failed dial yields no chain. -/
theorem c5_no_chain_witness :
    FetchChain "bad:418" (.failure "refused") 0 ≠ .ok [] :=
  (c5_failure_no_chain_message "bad:418" "refused" 0).1 []

/-! ## C6 -/

/-- C6: over any fixed dial outcome and observation instant, if
`ExpiresBeforeDate` answers true at date `t0`, it answers true at every
strictly later date `t1`. -/
theorem c6_expires_before_monotonic (address : String) (outcome : DialOutcome)
    (now t0 t1 : Int) (hlt : t0 < t1)
    (h0 : (ExpiresBeforeDate address outcome now t0).1 = true) :
    (ExpiresBeforeDate address outcome now t1).1 = true := by
  cases outcome with
  | failure cause => rfl
  | success certs =>
      simp only [ExpiresBeforeDate, FetchChain, List.any_eq_true] at h0 ⊢
      obtain ⟨s, hs, hlt0⟩ := h0
      refine ⟨s, hs, ?_⟩
      simp only [timeBefore, decide_eq_true_eq] at hlt0 ⊢
      omega

/-- C6 witness: a certificate expiring at instant 0 is reported before
date 1, hence also before date 2. -/
theorem c6_monotonic_witness :
    (ExpiresBeforeDate "host:443" (.success [⟨0, [], 0⟩]) 0 2).1 = true :=
  c6_expires_before_monotonic "host:443" (.success [⟨0, [], 0⟩]) 0 1 2
    (by decide) (by decide)

/-! ## C7 -/

/-- C7: `ExpiresWithinDays` tests the strict comparison
`ExpiresInDays < days` on each certificate, for every signed threshold
(negative included); a single-certificate chain expiring in 900 hours is
not within 30 days (`37 < 30` fails), while one expiring in 360 hours is
(`15 < 30` holds). -/
theorem c7_expires_within_days_strict (address : String) (certs : List PeerCertificate)
    (now days : Int) :
    ((ExpiresWithinDays address (.success certs) now days).1 = true ↔
        ∃ c ∈ certs, (certificateStatus now c).ExpiresInDays < days) ∧
    (∀ sig ser, ExpiresWithinDays address
        (.success [⟨now + 900 * nsPerHour, sig, ser⟩]) now 30 = (false, none)) ∧
    (∀ sig ser, ExpiresWithinDays address
        (.success [⟨now + 360 * nsPerHour, sig, ser⟩]) now 30 = (true, none)) := by
  refine ⟨?_, ?_, ?_⟩
  · simp [ExpiresWithinDays, FetchChain, List.any_map, List.any_eq_true,
      Function.comp]
  · intro sig ser
    have h : (certificateStatus now ⟨now + 900 * nsPerHour, sig, ser⟩).ExpiresInDays
        = 37 := by
      show (now + 900 * nsPerHour - now).tdiv nsPerDay = 37
      rw [show now + 900 * nsPerHour - now = 900 * nsPerHour from by ring]
      decide
    simp [ExpiresWithinDays, FetchChain, h]
  · intro sig ser
    have h : (certificateStatus now ⟨now + 360 * nsPerHour, sig, ser⟩).ExpiresInDays
        = 15 := by
      show (now + 360 * nsPerHour - now).tdiv nsPerDay = 15
      rw [show now + 360 * nsPerHour - now = 360 * nsPerHour from by ring]
      decide
    simp [ExpiresWithinDays, FetchChain, h]

/-! ## C8 -/

/-- C8: the record built from a peer certificate copies `NotAfter` into
`ExpirationDate` and the signature bytes and serial number verbatim, and
none of these three fields depends on the observation instant. -/
theorem c8_metadata_roundtrip (now : Int) (cert : PeerCertificate) :
    (certificateStatus now cert).ExpirationDate = cert.notAfter ∧
    (certificateStatus now cert).Signature = cert.signature ∧
    (certificateStatus now cert).SerialNumber = cert.serialNumber ∧
    (∀ now2 : Int,
      (certificateStatus now2 cert).ExpirationDate
          = (certificateStatus now cert).ExpirationDate ∧
      (certificateStatus now2 cert).Signature
          = (certificateStatus now cert).Signature ∧
      (certificateStatus now2 cert).SerialNumber
          = (certificateStatus now cert).SerialNumber) :=
  ⟨rfl, rfl, rfl, fun _ => ⟨rfl, rfl, rfl⟩⟩

/-! ## C9 -/

/-- C9: a successful fetch produces exactly one record per peer
certificate, in the peer-supplied order, each record being the pure
function `certificateStatus` of the shared observation instant and that
certificate alone; the resulting chain does not depend on the address
argument, so any two runs over the same certificate list and instant
produce identical chains. -/
theorem c9_pure_mapping_order (address : String) (certs : List PeerCertificate)
    (now : Int) :
    ∃ chain, FetchChain address (.success certs) now = .ok chain ∧
      chain.length = certs.length ∧
      (∀ i : Nat, chain[i]? = (certs[i]?).map (certificateStatus now)) ∧
      (∀ address2 : String,
        FetchChain address2 (.success certs) now = .ok chain) :=
  ⟨certs.map (certificateStatus now), rfl, by simp, fun i => by simp,
    fun _ => rfl⟩

/-! ## C10 -/

/-- C10: an expired certificate's `ExpiresInDays` is at most 0 (Go's
float-to-int conversion truncates toward zero, so a certificate expired
by less than a day gets exactly 0); consequently over a fixed fetched
chain, whenever `Expired` answers true, `ExpiresWithinDays` answers true
for every threshold of at least 1. -/
theorem c10_expired_implies_within (now : Int) (cert : PeerCertificate)
    (address : String) (certs : List PeerCertificate) (days : Int) :
    ((certificateStatus now cert).ExpiredNow = true →
        (certificateStatus now cert).ExpiresInDays ≤ 0) ∧
    (now - nsPerDay < cert.notAfter → cert.notAfter < now →
        (certificateStatus now cert).ExpiresInDays = 0) ∧
    (1 ≤ days → (Expired address (.success certs) now).1 = true →
        (ExpiresWithinDays address (.success certs) now days).1 = true) := by
  refine ⟨?_, ?_, ?_⟩
  · intro h
    simp only [certificateStatus, timeBefore, decide_eq_true_eq] at h
    exact tdiv_day_nonpos (by omega)
  · intro h1 h2
    show (cert.notAfter - now).tdiv nsPerDay = 0
    exact tdiv_day_eq_zero_of_small_neg (by omega) (by omega)
  · intro hdays htrue
    simp only [Expired, FetchChain, List.any_eq_true] at htrue
    obtain ⟨s, hs, hexp⟩ := htrue
    obtain ⟨c, hc, rfl⟩ := List.mem_map.mp hs
    simp only [certificateStatus, timeBefore, decide_eq_true_eq] at hexp
    simp only [ExpiresWithinDays, FetchChain, List.any_eq_true]
    refine ⟨certificateStatus now c, List.mem_map.mpr ⟨c, hc, rfl⟩, ?_⟩
    simp only [certificateStatus, decide_eq_true_eq]
    have h0 : (c.notAfter - now).tdiv nsPerDay ≤ 0 := tdiv_day_nonpos (by omega)
    omega

/-- C10 witness: a peer whose only certificate expired 12 hours ago makes
`Expired` true, and `ExpiresWithinDays` with threshold 1 is then true. -/
theorem c10_expired_within_witness :
    (ExpiresWithinDays "host:443" (.success [⟨0, [], 0⟩]) 43200000000000 1).1
      = true :=
  (c10_expired_implies_within 43200000000000 ⟨0, [], 0⟩ "host:443"
    [⟨0, [], 0⟩] 1).2.2 (by decide) (by decide)

end HazExpired
